import Mathlib

/-! Shallow embedding of the CH423 GPIO expander driver (src/ch423.c).

The state `Ch423` mirrors `struct ch423`: the cached configuration byte
`config`, the recorded direction `io_dir` of the bi-directional IO lines
(the Linux constants `GPIO_LINE_DIRECTION_OUT = 0`/`_IN = 1`), and the
24-bit output shadow `last_output` (an `unsigned long` in C, so a natural
number below `2 ^ 64`).

Each `i2c_transfer` call is modelled by its outcome: an `Int` that is
`>= 0` on success (the number of messages transferred) and a negative
errno on failure.  Operations take the outcomes as explicit arguments
(`bus k` is the outcome of the k-th transfer issued during the call, a
single `busResult` when at most one transfer can happen) and return,
besides the new state and the C return value, the list of i2c messages
attempted on the bus, so that theorems can count transactions.  The local
variable `ret` of `write_outputs` is read before being assigned on some
paths; its initial (indeterminate) value is the explicit parameter
`ret0`. -/

def CMD_SET_OC_L : Nat := 0x22
def CMD_SET_OC_H : Nat := 0x23
def CMD_CFG : Nat := 0x24
def CMD_CFG_IO_OE : Nat := 0x01
def CMD_CFG_OD_EN : Nat := 0x10
/-- Command 0x26 (named CMD_READ_IO in the source). -/
def CMD_READ_IO_REG : Nat := 0x26
/-- Command 0x30 (named CMD_SET_IO in the source). -/
def CMD_SET_IO_REG : Nat := 0x30

def GPIO_LINE_DIRECTION_OUT : Int := 0
def GPIO_LINE_DIRECTION_IN : Int := 1

def EINVAL : Int := 22
def ENOTSUPP : Int := 524

/-- Values of `enum pin_config_param` used by the driver
(linux/pinctrl/pinconf-generic.h). -/
def PIN_CONFIG_DRIVE_OPEN_DRAIN : Nat := 6
def PIN_CONFIG_DRIVE_PUSH_PULL : Nat := 8

/-- A single-byte i2c message: the command code used as address, and the
payload byte (for a read, the byte that came back). -/
structure I2cMsg where
  addr : Nat
  param : Nat
deriving DecidableEq

/-- The driver state, `struct ch423` (src/ch423.c lines 54-70). -/
structure Ch423 where
  config : Nat
  io_dir : Int
  last_output : Nat
deriving DecidableEq

/-- Result of an operation: the state afterwards, the C return value, and
the i2c messages that were put on the bus. -/
structure OpResult where
  dev : Ch423
  ret : Int
  txns : List I2cMsg
deriving DecidableEq

/-- Third block of `write_outputs` (src lines 130-136) and the final
commit (lines 138-140).  The source does not assign the result of this
`i2c_transfer` to `ret` (line 133): the following `if (ret < 0)` reads
the stale `ret`, so the outcome of the OC_H transfer itself is never
consulted — accordingly this stage takes no bus outcome at all. -/
def writeOcH (dev : Ch423) (values : Nat) (ret : Int) (txs : List I2cMsg) :
    OpResult :=
  if (values &&& 0xff0000) ≠ (dev.last_output &&& 0xff0000) then
    let txs2 := txs ++ [⟨CMD_SET_OC_H, (values >>> 16) &&& 0xff⟩]
    if ret < 0 then ⟨dev, ret, txs2⟩
    else ⟨{ dev with last_output := values }, 0, txs2⟩
  else ⟨{ dev with last_output := values }, 0, txs⟩

/-- Second block of `write_outputs` (src lines 122-128): the OC_L byte. -/
def writeOcL (dev : Ch423) (values : Nat) (bus : Nat → Int) (n : Nat)
    (ret : Int) (txs : List I2cMsg) : OpResult :=
  if (values &&& 0xff00) ≠ (dev.last_output &&& 0xff00) then
    let r := bus n
    let txs2 := txs ++ [⟨CMD_SET_OC_L, (values >>> 8) &&& 0xff⟩]
    if r < 0 then ⟨dev, r, txs2⟩
    else writeOcH dev values r txs2
  else writeOcH dev values ret txs

/-- `write_outputs` (src lines 104-141).  `bus k` is the outcome of the
k-th transfer issued during this call; `ret0` is the initial
(indeterminate) value of the local variable `ret`. -/
def write_outputs (dev : Ch423) (values : Nat) (bus : Nat → Int)
    (ret0 : Int) : OpResult :=
  if dev.io_dir = GPIO_LINE_DIRECTION_OUT ∧
      (values &&& 0xff) ≠ (dev.last_output &&& 0xff) then
    let r := bus 0
    let txs := [⟨CMD_SET_IO_REG, values &&& 0xff⟩]
    if r < 0 then ⟨dev, r, txs⟩
    else writeOcL dev values bus 1 r txs
  else writeOcL dev values bus 0 ret0 []

/-- `set_config` (src lines 177-196): write the config byte, skipping the
transaction when the cached value already matches; commit to the cache
only on success. -/
def set_config (dev : Ch423) (config : Nat) (busResult : Int) : OpResult :=
  if dev.config = config then ⟨dev, 0, []⟩
  else if busResult < 0 then ⟨dev, busResult, [⟨CMD_CFG, config⟩]⟩
  else ⟨{ dev with config := config }, 0, [⟨CMD_CFG, config⟩]⟩

/-- Complement within the 64 bits of a C `unsigned long`. -/
def not64 (x : Nat) : Nat := (2 ^ 64 - 1) ^^^ x

/-- The desired output word computed by `ch423_gpio_set`
(src lines 167-169): `values &= ~BIT(offset); values |= value << offset`.
The gpio core hands the driver a boolean value. -/
def setValues (last : Nat) (offset : Nat) (value : Bool) : Nat :=
  (last &&& not64 (1 <<< offset)) ||| ((if value then 1 else 0) <<< offset)

/-- `ch423_gpio_set` (src lines 160-174).  The C function returns `void`:
the `Int` returned by `write_outputs` is discarded, only the state and
the bus traffic remain observable. -/
def ch423_gpio_set (dev : Ch423) (offset : Nat) (value : Bool)
    (bus : Nat → Int) (ret0 : Int) : Ch423 × List I2cMsg :=
  let r := write_outputs dev (setValues dev.last_output offset value) bus ret0
  (r.dev, r.txns)

/-- `ch423_gpio_set_multiple` (src lines 143-158); also `void` in C. -/
def ch423_gpio_set_multiple (dev : Ch423) (mask bits : Nat)
    (bus : Nat → Int) (ret0 : Int) : Ch423 × List I2cMsg :=
  let values := (dev.last_output &&& not64 mask) ||| (bits &&& mask)
  let r := write_outputs dev values bus ret0
  (r.dev, r.txns)

/-- `ch423_gpio_get` (src lines 82-99): one read transaction under command
0x26, unconditionally; `param` is the byte that came back (a `u8`), and
`busResult` the outcome of the transfer.  The function does not depend on
the driver state and performs no range check on `offset`. -/
def ch423_gpio_get (offset : Nat) (busResult : Int) (param : Nat) :
    Int × List I2cMsg :=
  let txs := [⟨CMD_READ_IO_REG, param⟩]
  if busResult < 0 then (busResult, txs)
  else ((Int.ofNat ((param >>> offset) &&& 1)), txs)

/-- `ch423_gpio_get_direction` (src lines 72-80). -/
def ch423_gpio_get_direction (dev : Ch423) (offset : Nat) : Int :=
  if 8 ≤ offset then GPIO_LINE_DIRECTION_OUT else dev.io_dir

/-- `ch423_gpio_direction_input` (src lines 198-212).  `config & ~1` on a
`u8` is `config &&& 0xfe`. -/
def ch423_gpio_direction_input (dev : Ch423) (offset : Nat)
    (busResult : Int) : OpResult :=
  if 8 ≤ offset then ⟨dev, -EINVAL, []⟩
  else
    let r := set_config dev (dev.config &&& 0xfe) busResult
    if r.ret = 0 then
      ⟨{ r.dev with io_dir := GPIO_LINE_DIRECTION_IN }, r.ret, r.txns⟩
    else r

/-- `ch423_gpio_direction_output` (src lines 214-231).  `busConfig` is the
outcome of the config transfer (when one is issued); `bus`/`ret0` feed the
inner `ch423_gpio_set`.  Note the function returns 0 after the set stage
regardless of that stage's outcome. -/
def ch423_gpio_direction_output (dev : Ch423) (offset : Nat) (value : Bool)
    (busConfig : Int) (bus : Nat → Int) (ret0 : Int) : OpResult :=
  if offset < 8 ∧ dev.io_dir ≠ GPIO_LINE_DIRECTION_OUT then
    let r := set_config dev (dev.config ||| CMD_CFG_IO_OE) busConfig
    if r.ret < 0 then r
    else
      let d2 := { r.dev with io_dir := GPIO_LINE_DIRECTION_OUT }
      let s := ch423_gpio_set d2 offset value bus ret0
      ⟨s.1, 0, r.txns ++ s.2⟩
  else
    let s := ch423_gpio_set dev offset value bus ret0
    ⟨s.1, 0, s.2⟩

/-- `pinconf_to_config_param` from linux/pinctrl/pinconf-generic.h: the
parameter lives in the low 8 bits of the packed config word. -/
def pinconf_to_config_param (config : Nat) : Nat := config &&& 0xff

/-- `ch423_gpio_set_config` (src lines 233-251): drive-mode selection.
`config & ~CMD_CFG_OD_EN` on a `u8` is `config &&& 0xef`. -/
def ch423_gpio_set_config (dev : Ch423) (offset : Nat) (config : Nat)
    (busResult : Int) : OpResult :=
  let param := pinconf_to_config_param config
  if offset < 8 then ⟨dev, -ENOTSUPP, []⟩
  else if param = PIN_CONFIG_DRIVE_OPEN_DRAIN then
    set_config dev (dev.config ||| CMD_CFG_OD_EN) busResult
  else if param = PIN_CONFIG_DRIVE_PUSH_PULL then
    set_config dev (dev.config &&& 0xef) busResult
  else ⟨dev, -ENOTSUPP, []⟩

/-- The driver state after a fully successful `ch423_probe`
(src lines 291-304): from the zero-allocated struct, `io_dir` is set to
Input and `config` to 0xff, then `set_config(dev, 0)` runs, then
`last_output` is set to 0xffff00 and `write_outputs(dev, 0)` runs, all
transfers succeeding.  Evaluates to ⟨0, 1, 0⟩. -/
def probeState : Ch423 :=
  (write_outputs
    { (set_config ⟨0xff, GPIO_LINE_DIRECTION_IN, 0⟩ 0 1).dev with
        last_output := 0xffff00 }
    0 (fun _ => 1) 0).dev

/-- States the device handle can be in: the successful-probe state closed
under every gpio_chip operation, with arbitrary arguments and arbitrary
bus outcomes. -/
inductive Reachable : Ch423 → Prop where
  | init : Reachable probeState
  | set : ∀ {s} offset value bus ret0, Reachable s →
      Reachable (ch423_gpio_set s offset value bus ret0).1
  | setMultiple : ∀ {s} mask bits bus ret0, Reachable s →
      Reachable (ch423_gpio_set_multiple s mask bits bus ret0).1
  | dirInput : ∀ {s} offset busResult, Reachable s →
      Reachable (ch423_gpio_direction_input s offset busResult).dev
  | dirOutput : ∀ {s} offset value busConfig bus ret0, Reachable s →
      Reachable (ch423_gpio_direction_output s offset value busConfig bus ret0).dev
  | setCfg : ∀ {s} offset config busResult, Reachable s →
      Reachable (ch423_gpio_set_config s offset config busResult).dev

/-- Coupling invariant between the recorded direction and the cached
IO_OE config bit: while the bi-directional group is recorded as Input,
the cached config has the IO_OE bit clear. -/
def DirCfgInv (s : Ch423) : Prop :=
  s.io_dir = GPIO_LINE_DIRECTION_IN → s.config &&& 1 = 0

/-- The probe leaves config 0, direction Input, shadow 0. -/
theorem probeState_eval : probeState = ⟨0, 1, 0⟩ := by decide

/-! Helper lemmas about the bit fiddling and about which parts of the
state each operation can touch. -/

theorem one_testBit_succ (j : Nat) : Nat.testBit 1 (j + 1) = false := by
  rw [Nat.testBit_succ]
  exact Nat.zero_testBit j

theorem and_fe_and_one (x : Nat) : (x &&& 0xfe) &&& 1 = 0 := by
  rw [Nat.and_assoc, show (0xfe &&& 1 : Nat) = 0 from rfl, Nat.and_zero]

theorem and_ef_and_one (x : Nat) : (x &&& 0xef) &&& 1 = x &&& 1 := by
  rw [Nat.and_assoc, show (0xef &&& 1 : Nat) = 1 from rfl]

theorem or_sixteen_and_one (x : Nat) : (x ||| 16) &&& 1 = x &&& 1 := by
  apply Nat.eq_of_testBit_eq
  intro i
  rw [Nat.testBit_and, Nat.testBit_or, Nat.testBit_and]
  match i with
  | 0 => simp [show Nat.testBit 16 0 = false from rfl]
  | j + 1 => simp [one_testBit_succ j]

theorem testBit_zero_of_and_one (x : Nat) (h : x &&& 1 = 0) :
    x.testBit 0 = false := by
  have h0 := congrArg (fun y => Nat.testBit y 0) h
  simp only [Nat.testBit_and] at h0
  simpa [show Nat.testBit 1 0 = true from rfl, Nat.zero_testBit] using h0

theorem or_one_ne_of_bit0_clear (x : Nat) (h : x &&& 1 = 0) : x ||| 1 ≠ x := by
  intro he
  have h0 := congrArg (fun y => Nat.testBit y 0) he
  simp only [Nat.testBit_or, show Nat.testBit 1 0 = true from rfl,
    Bool.or_true] at h0
  rw [testBit_zero_of_and_one x h] at h0
  simp at h0

/-- `write_outputs` either leaves the state alone (early error return) or
commits the whole desired word, and touches nothing else. -/
theorem write_outputs_dev_cases (dev : Ch423) (values : Nat)
    (bus : Nat → Int) (ret0 : Int) :
    (write_outputs dev values bus ret0).dev = dev ∨
    (write_outputs dev values bus ret0).dev
      = { dev with last_output := values } := by
  simp only [write_outputs, writeOcL, writeOcH]
  split_ifs <;> simp

/-- `write_outputs` never changes `config` or `io_dir`. -/
theorem write_outputs_config_io (dev : Ch423) (values : Nat)
    (bus : Nat → Int) (ret0 : Int) :
    (write_outputs dev values bus ret0).dev.config = dev.config ∧
    (write_outputs dev values bus ret0).dev.io_dir = dev.io_dir := by
  rcases write_outputs_dev_cases dev values bus ret0 with h | h <;>
    rw [h] <;> exact ⟨rfl, rfl⟩

/-- Every message `write_outputs` puts on the bus uses one of the three
output command codes. -/
theorem write_outputs_txn_addrs (dev : Ch423) (values : Nat)
    (bus : Nat → Int) (ret0 : Int) :
    ∀ m ∈ (write_outputs dev values bus ret0).txns,
      m.addr = CMD_SET_IO_REG ∨ m.addr = CMD_SET_OC_L ∨
        m.addr = CMD_SET_OC_H := by
  simp only [write_outputs, writeOcL, writeOcH]
  split_ifs <;> intro m hm <;> simp at hm <;>
    rcases hm with rfl | rfl | rfl <;> simp

theorem write_outputs_dev_config (dev : Ch423) (values : Nat)
    (bus : Nat → Int) (ret0 : Int) :
    (write_outputs dev values bus ret0).dev.config = dev.config :=
  (write_outputs_config_io dev values bus ret0).1

theorem write_outputs_dev_io (dev : Ch423) (values : Nat)
    (bus : Nat → Int) (ret0 : Int) :
    (write_outputs dev values bus ret0).dev.io_dir = dev.io_dir :=
  (write_outputs_config_io dev values bus ret0).2

theorem ch423_gpio_set_fst (dev : Ch423) (offset : Nat) (value : Bool)
    (bus : Nat → Int) (ret0 : Int) :
    (ch423_gpio_set dev offset value bus ret0).1
      = (write_outputs dev (setValues dev.last_output offset value) bus ret0).dev :=
  rfl

theorem ch423_gpio_set_multiple_fst (dev : Ch423) (mask bits : Nat)
    (bus : Nat → Int) (ret0 : Int) :
    (ch423_gpio_set_multiple dev mask bits bus ret0).1
      = (write_outputs dev
          ((dev.last_output &&& not64 mask) ||| (bits &&& mask)) bus ret0).dev :=
  rfl

theorem gpio_set_preserves_inv (s : Ch423) (offset : Nat) (value : Bool)
    (bus : Nat → Int) (ret0 : Int) (h : DirCfgInv s) :
    DirCfgInv (ch423_gpio_set s offset value bus ret0).1 := by
  unfold DirCfgInv at h ⊢
  rw [ch423_gpio_set_fst, write_outputs_dev_config, write_outputs_dev_io]
  exact h

theorem gpio_set_multiple_preserves_inv (s : Ch423) (mask bits : Nat)
    (bus : Nat → Int) (ret0 : Int) (h : DirCfgInv s) :
    DirCfgInv (ch423_gpio_set_multiple s mask bits bus ret0).1 := by
  unfold DirCfgInv at h ⊢
  rw [ch423_gpio_set_multiple_fst, write_outputs_dev_config,
    write_outputs_dev_io]
  exact h

/-! Branch characterizations of the operations that touch the config
byte or the recorded direction. -/

theorem set_config_skip (dev : Ch423) (c : Nat) (b : Int)
    (he : dev.config = c) : set_config dev c b = ⟨dev, 0, []⟩ := by
  simp [set_config, he]

theorem set_config_ok (dev : Ch423) (c : Nat) (b : Int)
    (hne : dev.config ≠ c) (hb : 0 ≤ b) :
    set_config dev c b = ⟨{ dev with config := c }, 0, [⟨CMD_CFG, c⟩]⟩ := by
  simp [set_config, hne, not_lt.mpr hb]

theorem set_config_err (dev : Ch423) (c : Nat) (b : Int)
    (hne : dev.config ≠ c) (hb : b < 0) :
    set_config dev c b = ⟨dev, b, [⟨CMD_CFG, c⟩]⟩ := by
  simp [set_config, hne, hb]

theorem dirInput_ge8 (dev : Ch423) (offset : Nat) (b : Int)
    (h : 8 ≤ offset) :
    ch423_gpio_direction_input dev offset b = ⟨dev, -EINVAL, []⟩ := by
  simp [ch423_gpio_direction_input, h]

theorem dirInput_skip (dev : Ch423) (offset : Nat) (b : Int)
    (h : offset < 8) (he : dev.config = dev.config &&& 0xfe) :
    ch423_gpio_direction_input dev offset b
      = ⟨{ dev with io_dir := GPIO_LINE_DIRECTION_IN }, 0, []⟩ := by
  simp [ch423_gpio_direction_input, not_le.mpr h, set_config_skip _ _ _ he]

theorem dirInput_ok (dev : Ch423) (offset : Nat) (b : Int)
    (h : offset < 8) (hne : dev.config ≠ dev.config &&& 0xfe) (hb : 0 ≤ b) :
    ch423_gpio_direction_input dev offset b
      = ⟨⟨dev.config &&& 0xfe, GPIO_LINE_DIRECTION_IN, dev.last_output⟩, 0,
          [⟨CMD_CFG, dev.config &&& 0xfe⟩]⟩ := by
  simp [ch423_gpio_direction_input, not_le.mpr h, set_config_ok _ _ _ hne hb]

theorem dirInput_err (dev : Ch423) (offset : Nat) (b : Int)
    (h : offset < 8) (hne : dev.config ≠ dev.config &&& 0xfe) (hb : b < 0) :
    ch423_gpio_direction_input dev offset b
      = ⟨dev, b, [⟨CMD_CFG, dev.config &&& 0xfe⟩]⟩ := by
  simp [ch423_gpio_direction_input, not_le.mpr h, set_config_err _ _ _ hne hb,
    ne_of_lt hb]

theorem dirOutput_already (dev : Ch423) (offset : Nat) (value : Bool)
    (bc : Int) (bus : Nat → Int) (ret0 : Int)
    (h : ¬(offset < 8 ∧ dev.io_dir ≠ GPIO_LINE_DIRECTION_OUT)) :
    ch423_gpio_direction_output dev offset value bc bus ret0
      = ⟨(ch423_gpio_set dev offset value bus ret0).1, 0,
          (ch423_gpio_set dev offset value bus ret0).2⟩ := by
  simp [ch423_gpio_direction_output, h]

theorem dirOutput_cfg_skip (dev : Ch423) (offset : Nat) (value : Bool)
    (bc : Int) (bus : Nat → Int) (ret0 : Int)
    (h8 : offset < 8) (hdir : dev.io_dir ≠ GPIO_LINE_DIRECTION_OUT)
    (he : dev.config = dev.config ||| CMD_CFG_IO_OE) :
    ch423_gpio_direction_output dev offset value bc bus ret0
      = ⟨(ch423_gpio_set { dev with io_dir := GPIO_LINE_DIRECTION_OUT }
            offset value bus ret0).1, 0,
          (ch423_gpio_set { dev with io_dir := GPIO_LINE_DIRECTION_OUT }
            offset value bus ret0).2⟩ := by
  simp [ch423_gpio_direction_output, h8, hdir, set_config_skip _ _ _ he]

theorem dirOutput_cfg_ok (dev : Ch423) (offset : Nat) (value : Bool)
    (bc : Int) (bus : Nat → Int) (ret0 : Int)
    (h8 : offset < 8) (hdir : dev.io_dir ≠ GPIO_LINE_DIRECTION_OUT)
    (hne : dev.config ≠ dev.config ||| CMD_CFG_IO_OE) (hb : 0 ≤ bc) :
    ch423_gpio_direction_output dev offset value bc bus ret0
      = ⟨(ch423_gpio_set
            ⟨dev.config ||| CMD_CFG_IO_OE, GPIO_LINE_DIRECTION_OUT,
              dev.last_output⟩ offset value bus ret0).1, 0,
          ⟨CMD_CFG, dev.config ||| CMD_CFG_IO_OE⟩ ::
            (ch423_gpio_set
              ⟨dev.config ||| CMD_CFG_IO_OE, GPIO_LINE_DIRECTION_OUT,
                dev.last_output⟩ offset value bus ret0).2⟩ := by
  simp [ch423_gpio_direction_output, h8, hdir, set_config_ok _ _ _ hne hb]

theorem dirOutput_cfg_err (dev : Ch423) (offset : Nat) (value : Bool)
    (bc : Int) (bus : Nat → Int) (ret0 : Int)
    (h8 : offset < 8) (hdir : dev.io_dir ≠ GPIO_LINE_DIRECTION_OUT)
    (hne : dev.config ≠ dev.config ||| CMD_CFG_IO_OE) (hb : bc < 0) :
    ch423_gpio_direction_output dev offset value bc bus ret0
      = ⟨dev, bc, [⟨CMD_CFG, dev.config ||| CMD_CFG_IO_OE⟩]⟩ := by
  simp [ch423_gpio_direction_output, h8, hdir, set_config_err _ _ _ hne hb,
    hb]

theorem setCfgOp_lt8 (dev : Ch423) (offset cfg : Nat) (b : Int)
    (h : offset < 8) :
    ch423_gpio_set_config dev offset cfg b = ⟨dev, -ENOTSUPP, []⟩ := by
  simp [ch423_gpio_set_config, h]

theorem setCfgOp_od (dev : Ch423) (offset cfg : Nat) (b : Int)
    (h8 : 8 ≤ offset)
    (hp : pinconf_to_config_param cfg = PIN_CONFIG_DRIVE_OPEN_DRAIN) :
    ch423_gpio_set_config dev offset cfg b
      = set_config dev (dev.config ||| CMD_CFG_OD_EN) b := by
  simp [ch423_gpio_set_config, not_lt.mpr h8, hp]

theorem setCfgOp_pp (dev : Ch423) (offset cfg : Nat) (b : Int)
    (h8 : 8 ≤ offset)
    (hp : pinconf_to_config_param cfg = PIN_CONFIG_DRIVE_PUSH_PULL) :
    ch423_gpio_set_config dev offset cfg b
      = set_config dev (dev.config &&& 0xef) b := by
  simp [ch423_gpio_set_config, not_lt.mpr h8, hp,
    show PIN_CONFIG_DRIVE_PUSH_PULL ≠ PIN_CONFIG_DRIVE_OPEN_DRAIN from by decide]

theorem setCfgOp_other (dev : Ch423) (offset cfg : Nat) (b : Int)
    (h8 : 8 ≤ offset)
    (hp1 : pinconf_to_config_param cfg ≠ PIN_CONFIG_DRIVE_OPEN_DRAIN)
    (hp2 : pinconf_to_config_param cfg ≠ PIN_CONFIG_DRIVE_PUSH_PULL) :
    ch423_gpio_set_config dev offset cfg b = ⟨dev, -ENOTSUPP, []⟩ := by
  simp [ch423_gpio_set_config, not_lt.mpr h8, hp1, hp2]

theorem dirInput_preserves_inv (s : Ch423) (offset : Nat) (b : Int)
    (h : DirCfgInv s) :
    DirCfgInv (ch423_gpio_direction_input s offset b).dev := by
  unfold DirCfgInv at h ⊢
  by_cases h8 : 8 ≤ offset
  · rw [dirInput_ge8 s offset b h8]; exact h
  · by_cases he : s.config = s.config &&& 0xfe
    · rw [dirInput_skip s offset b (by omega) he]
      intro _
      show s.config &&& 1 = 0
      rw [he]
      exact and_fe_and_one s.config
    · by_cases hb : 0 ≤ b
      · rw [dirInput_ok s offset b (by omega) he hb]
        intro _
        exact and_fe_and_one s.config
      · rw [dirInput_err s offset b (by omega) he (by omega)]
        exact h

theorem dirOutput_preserves_inv (s : Ch423) (offset : Nat) (value : Bool)
    (bc : Int) (bus : Nat → Int) (ret0 : Int) (h : DirCfgInv s) :
    DirCfgInv (ch423_gpio_direction_output s offset value bc bus ret0).dev := by
  unfold DirCfgInv at h ⊢
  by_cases hc : offset < 8 ∧ s.io_dir ≠ GPIO_LINE_DIRECTION_OUT
  · by_cases he : s.config = s.config ||| CMD_CFG_IO_OE
    · rw [dirOutput_cfg_skip s offset value bc bus ret0 hc.1 hc.2 he]
      dsimp only
      rw [ch423_gpio_set_fst, write_outputs_dev_io, write_outputs_dev_config]
      intro hdir
      simp [GPIO_LINE_DIRECTION_OUT, GPIO_LINE_DIRECTION_IN] at hdir
    · by_cases hb : 0 ≤ bc
      · rw [dirOutput_cfg_ok s offset value bc bus ret0 hc.1 hc.2 he hb]
        dsimp only
        rw [ch423_gpio_set_fst, write_outputs_dev_io, write_outputs_dev_config]
        intro hdir
        simp [GPIO_LINE_DIRECTION_OUT, GPIO_LINE_DIRECTION_IN] at hdir
      · rw [dirOutput_cfg_err s offset value bc bus ret0 hc.1 hc.2 he
          (by omega)]
        exact h
  · rw [dirOutput_already s offset value bc bus ret0 hc]
    dsimp only
    rw [ch423_gpio_set_fst, write_outputs_dev_io, write_outputs_dev_config]
    exact h

theorem setCfg_preserves_inv (s : Ch423) (offset cfg : Nat) (b : Int)
    (h : DirCfgInv s) :
    DirCfgInv (ch423_gpio_set_config s offset cfg b).dev := by
  unfold DirCfgInv at h ⊢
  by_cases h8 : offset < 8
  · rw [setCfgOp_lt8 s offset cfg b h8]; exact h
  · by_cases hp1 : pinconf_to_config_param cfg = PIN_CONFIG_DRIVE_OPEN_DRAIN
    · rw [setCfgOp_od s offset cfg b (by omega) hp1]
      by_cases he : s.config = s.config ||| CMD_CFG_OD_EN
      · rw [set_config_skip _ _ _ he]; exact h
      · by_cases hb : 0 ≤ b
        · rw [set_config_ok _ _ _ he hb]
          intro hdir
          show (s.config ||| CMD_CFG_OD_EN) &&& 1 = 0
          rw [show CMD_CFG_OD_EN = 16 from rfl, or_sixteen_and_one]
          exact h hdir
        · rw [set_config_err _ _ _ he (by omega)]; exact h
    · by_cases hp2 : pinconf_to_config_param cfg = PIN_CONFIG_DRIVE_PUSH_PULL
      · rw [setCfgOp_pp s offset cfg b (by omega) hp2]
        by_cases he : s.config = s.config &&& 0xef
        · rw [set_config_skip _ _ _ he]; exact h
        · by_cases hb : 0 ≤ b
          · rw [set_config_ok _ _ _ he hb]
            intro hdir
            show (s.config &&& 0xef) &&& 1 = 0
            rw [and_ef_and_one]
            exact h hdir
          · rw [set_config_err _ _ _ he (by omega)]; exact h
      · rw [setCfgOp_other s offset cfg b (by omega) hp1 hp2]; exact h

/-- The direction/config coupling invariant holds in every reachable
state. -/
theorem reachable_dirCfgInv {s : Ch423} (h : Reachable s) : DirCfgInv s := by
  induction h with
  | init => unfold DirCfgInv; intro _; decide
  | set offset value bus ret0 _ ih =>
      exact gpio_set_preserves_inv _ offset value bus ret0 ih
  | setMultiple mask bits bus ret0 _ ih =>
      exact gpio_set_multiple_preserves_inv _ mask bits bus ret0 ih
  | dirInput offset busResult _ ih =>
      exact dirInput_preserves_inv _ offset busResult ih
  | dirOutput offset value busConfig bus ret0 _ ih =>
      exact dirOutput_preserves_inv _ offset value busConfig bus ret0 ih
  | setCfg offset config busResult _ ih =>
      exact setCfg_preserves_inv _ offset config busResult ih

/-! Claim theorems. -/

/-- C1: claimed — when an earlier output byte's transaction succeeds and a
later byte's fails, the cached shadow afterwards holds the new earlier
byte and the old value of the failed byte, and the call returns the
failure.  The code violates this: with the cache at 0 and desired value
0x010100 (the OC_L and OC_H bytes both change), the OC_L transfer
succeeding (outcome 1) and the OC_H transfer failing (outcome -5,
discarded by the code at src line 133), `write_outputs` commits the
entire desired value — including the byte whose transaction failed — and
returns 0. -/
theorem C1_partial_failure_eval :
    (write_outputs ⟨0, GPIO_LINE_DIRECTION_IN, 0⟩ 0x010100
        (fun n => if n = 0 then 1 else -5) 0).dev.last_output = 0x010100 ∧
    (write_outputs ⟨0, GPIO_LINE_DIRECTION_IN, 0⟩ 0x010100
        (fun n => if n = 0 then 1 else -5) 0).ret = 0 ∧
    (write_outputs ⟨0, GPIO_LINE_DIRECTION_IN, 0⟩ 0x010100
        (fun n => if n = 0 then 1 else -5) 0).txns
      = [⟨CMD_SET_OC_L, 1⟩, ⟨CMD_SET_OC_H, 1⟩] := by decide

/-- C2: claimed — write_outputs succeeds only if every attempted
transaction (including the OC_H one, command 0x23) succeeded.  The code
violates this: in the same run as C1 the OC_H transfer's outcome is never
consulted (src line 133 does not assign it to ret), so the call returns 0
regardless of that outcome. -/
theorem C2_unreported_error_eval (r : Int) :
    (write_outputs ⟨0, GPIO_LINE_DIRECTION_IN, 0⟩ 0x010100
        (fun n => if n = 0 then 1 else r) 0).ret = 0 := by
  have : ∀ b : Nat → Int, b 0 = 1 →
      (write_outputs ⟨0, GPIO_LINE_DIRECTION_IN, 0⟩ 0x010100 b 0).ret = 0 := by
    intro b hb
    simp only [write_outputs, writeOcL, writeOcH, hb]
    rw [if_neg (by decide)]
    decide
  exact this _ rfl

/-- C3: counterexample to "write_outputs issues a transaction for byte k
iff byte k differs from the cached shadow".  With the IO group recorded
as Input and the cache at 0, writing desired value 1 (byte 0 differs)
issues no transaction at all: the byte-0 transaction is additionally
gated on the group direction being Output (src line 113). -/
theorem C3_counterexample :
    (write_outputs ⟨0, GPIO_LINE_DIRECTION_IN, 0⟩ 1 (fun _ => 1) 0).txns = []
      ∧ (1 : Nat) &&& 0xff ≠ (0 : Nat) &&& 0xff := by decide

/-- C4: counterexample to "a failure of the underlying output write
inside set(pin, value) is reported to its caller".  With the cache at 0,
direction Output, `set(0, 1)` issues the IO-byte write, the transfer
fails with -5, `write_outputs` returns -5 — and `ch423_gpio_set`, a void
function, discards it: its observable result (state and transactions)
carries no error. -/
theorem C4_counterexample :
    (write_outputs ⟨0, GPIO_LINE_DIRECTION_OUT, 0⟩ (setValues 0 0 true)
        (fun _ => -5) 0).ret = -5 ∧
    ch423_gpio_set ⟨0, GPIO_LINE_DIRECTION_OUT, 0⟩ 0 true (fun _ => -5) 0
      = (⟨0, GPIO_LINE_DIRECTION_OUT, 0⟩, [⟨CMD_SET_IO_REG, 1⟩]) := by decide

/-- C5: counterexample to "for every pin ≥ 8, read(pin) fails with an
Unsupported condition".  `ch423_gpio_get` has no range check: read(10)
with a successful bus read of byte 0xff performs the command-0x26 read
and returns 0 (bit 10 of an 8-bit byte), not an error. -/
theorem C5_counterexample :
    ch423_gpio_get 10 1 0xff = (0, [⟨CMD_READ_IO_REG, 0xff⟩]) := by decide

/-- C6: counterexample to "calling write_config twice in a row with the
same desired value issues exactly one bus transaction in total".  When
the desired value already equals the cached config (here 5), both calls
are no-ops: zero transactions in total, not one. -/
theorem C6_counterexample :
    (set_config ⟨5, GPIO_LINE_DIRECTION_IN, 0⟩ 5 1).txns ++
      (set_config (set_config ⟨5, GPIO_LINE_DIRECTION_IN, 0⟩ 5 1).dev 5 1).txns
      = [] := by decide

/-- C3 amended: when every attempted transfer succeeds, `write_outputs`
issues the OC_L (resp. OC_H) transaction iff the middle (resp. high) byte
differs from the cached shadow, and the IO-byte transaction iff that byte
differs AND the bi-directional group is recorded as Output; in
particular, when nothing differs, no transaction is issued. -/
theorem C3_diff_minimality (dev : Ch423) (values : Nat) (bus : Nat → Int)
    (ret0 : Int) (hbus : ∀ n, 0 ≤ bus n) :
    (write_outputs dev values bus ret0).txns =
      (if dev.io_dir = GPIO_LINE_DIRECTION_OUT ∧
          values &&& 0xff ≠ dev.last_output &&& 0xff
        then [⟨CMD_SET_IO_REG, values &&& 0xff⟩] else []) ++
      (if values &&& 0xff00 ≠ dev.last_output &&& 0xff00
        then [⟨CMD_SET_OC_L, (values >>> 8) &&& 0xff⟩] else []) ++
      (if values &&& 0xff0000 ≠ dev.last_output &&& 0xff0000
        then [⟨CMD_SET_OC_H, (values >>> 16) &&& 0xff⟩] else []) := by
  have h0 : ¬ bus 0 < 0 := not_lt.mpr (hbus 0)
  have h1 : ¬ bus 1 < 0 := not_lt.mpr (hbus 1)
  simp only [write_outputs, writeOcL, writeOcH]
  split_ifs <;> simp_all

/-- C4 amended: transport errors are reported by the operations that
return a status — read (`ch423_gpio_get`), `set_direction_input`, the
config stage of `set_direction_output`, `set_drive_mode`
(`ch423_gpio_set_config`) and the register-cache `set_config` itself —
whenever a transaction is actually attempted.  (`ch423_gpio_set` and
`ch423_gpio_set_multiple`, however, are void and drop the error; see the
counterexample.) -/
theorem C4_error_reporting (dev : Ch423) (offset : Nat) (cfg : Nat)
    (b : Int) (param : Nat) (hb : b < 0) :
    (ch423_gpio_get offset b param).1 = b ∧
    (offset < 8 → dev.config ≠ dev.config &&& 0xfe →
      (ch423_gpio_direction_input dev offset b).ret = b) ∧
    (offset < 8 → dev.io_dir ≠ GPIO_LINE_DIRECTION_OUT →
      dev.config ≠ dev.config ||| CMD_CFG_IO_OE →
      ∀ value bus ret0,
        (ch423_gpio_direction_output dev offset value b bus ret0).ret = b) ∧
    (8 ≤ offset → pinconf_to_config_param cfg = PIN_CONFIG_DRIVE_OPEN_DRAIN →
      dev.config ≠ dev.config ||| CMD_CFG_OD_EN →
      (ch423_gpio_set_config dev offset cfg b).ret = b) ∧
    (dev.config ≠ cfg → (set_config dev cfg b).ret = b) := by
  refine ⟨?_, ?_, ?_, ?_, ?_⟩
  · simp [ch423_gpio_get, hb]
  · intro h8 hne
    rw [dirInput_err dev offset b h8 hne hb]
  · intro h8 hdir hne value bus ret0
    rw [dirOutput_cfg_err dev offset value b bus ret0 h8 hdir hne hb]
  · intro h8 hp hne
    rw [setCfgOp_od dev offset cfg b h8 hp, set_config_err _ _ _ hne hb]
  · intro hne
    rw [set_config_err _ _ _ hne hb]

/-- C5 amended: for every pin — with no range check — read performs the
one command-0x26 bus read and, on success, returns bit `pin` of the byte
read; since the byte is 8 bits wide, the result is 0 for every pin ≥ 8
(no Unsupported failure occurs); a transport error is returned as is. -/
theorem C5_get_behavior (offset : Nat) (b : Int) (param : Nat)
    (hp : param < 256) :
    (b < 0 →
      ch423_gpio_get offset b param = (b, [⟨CMD_READ_IO_REG, param⟩])) ∧
    (0 ≤ b →
      ch423_gpio_get offset b param
        = (Int.ofNat ((param >>> offset) &&& 1), [⟨CMD_READ_IO_REG, param⟩]) ∧
      (8 ≤ offset → (param >>> offset) &&& 1 = 0)) := by
  refine ⟨?_, ?_⟩
  · intro hb
    simp [ch423_gpio_get, hb]
  · intro hb
    refine ⟨by simp [ch423_gpio_get, not_lt.mpr hb], ?_⟩
    intro h8
    have hsh : param >>> offset = 0 := by
      rw [Nat.shiftRight_eq_div_pow]
      apply Nat.div_eq_of_lt
      calc param < 256 := hp
        _ = 2 ^ 8 := by norm_num
        _ ≤ 2 ^ offset := Nat.pow_le_pow_right (by norm_num) h8
    simp [hsh]

/-- C6 amended: write_config is a no-op when the desired value equals the
cached config; otherwise it issues exactly one command-0x24 write with
the desired value as payload and commits the cache only on success.
Consequently two consecutive calls with the same desired value issue
exactly one transaction in total when the value initially differs from
the cache and the transfer succeeds (and zero when it already matches). -/
theorem C6_write_config (dev : Ch423) (c : Nat) (b b2 : Int) :
    (dev.config = c → set_config dev c b = ⟨dev, 0, []⟩) ∧
    (dev.config ≠ c → b < 0 →
      set_config dev c b = ⟨dev, b, [⟨CMD_CFG, c⟩]⟩) ∧
    (dev.config ≠ c → 0 ≤ b →
      set_config dev c b = ⟨{ dev with config := c }, 0, [⟨CMD_CFG, c⟩]⟩ ∧
      (set_config dev c b).txns ++
        (set_config (set_config dev c b).dev c b2).txns = [⟨CMD_CFG, c⟩]) := by
  refine ⟨set_config_skip dev c b,
    fun hne hb => set_config_err dev c b hne hb, ?_⟩
  intro hne hb
  have h1 := set_config_ok dev c b hne hb
  refine ⟨h1, ?_⟩
  rw [h1]
  rw [set_config_skip _ _ _ rfl]
  simp

theorem ch423_gpio_set_snd (dev : Ch423) (offset : Nat) (value : Bool)
    (bus : Nat → Int) (ret0 : Int) :
    (ch423_gpio_set dev offset value bus ret0).2
      = (write_outputs dev (setValues dev.last_output offset value)
          bus ret0).txns :=
  rfl

/-- C7: from any reachable state with the bi-directional group recorded
as Input, `set_direction_output(pin, value)` for pin < 8 (with the config
transfer succeeding) issues exactly one config transaction — the first
message on the bus, carrying the config byte with the IO_OE bit set —
followed only by output transactions; it records direction Output, and
afterwards `get_direction` reports Output for every pin below 8. -/
theorem C7_direction_output_group (dev : Ch423) (offset : Nat)
    (value : Bool) (busConfig : Int) (bus : Nat → Int) (ret0 : Int)
    (hreach : Reachable dev) (hoff : offset < 8)
    (hdir : dev.io_dir = GPIO_LINE_DIRECTION_IN) (hbus : 0 ≤ busConfig) :
    (∃ rest,
      (ch423_gpio_direction_output dev offset value busConfig bus ret0).txns
        = ⟨CMD_CFG, dev.config ||| CMD_CFG_IO_OE⟩ :: rest ∧
      ∀ m ∈ rest, m.addr ≠ CMD_CFG) ∧
    (ch423_gpio_direction_output dev offset value busConfig
        bus ret0).dev.io_dir = GPIO_LINE_DIRECTION_OUT ∧
    ∀ p, p < 8 →
      ch423_gpio_get_direction
        (ch423_gpio_direction_output dev offset value busConfig bus ret0).dev
        p = GPIO_LINE_DIRECTION_OUT := by
  have hinv : dev.config &&& 1 = 0 := reachable_dirCfgInv hreach hdir
  have hne : dev.config ≠ dev.config ||| CMD_CFG_IO_OE := by
    intro he
    exact or_one_ne_of_bit0_clear dev.config hinv he.symm
  have hdir2 : dev.io_dir ≠ GPIO_LINE_DIRECTION_OUT := by
    rw [hdir]; decide
  rw [dirOutput_cfg_ok dev offset value busConfig bus ret0 hoff hdir2 hne
    hbus]
  have hio : (ch423_gpio_set
      ⟨dev.config ||| CMD_CFG_IO_OE, GPIO_LINE_DIRECTION_OUT,
        dev.last_output⟩ offset value bus ret0).1.io_dir
      = GPIO_LINE_DIRECTION_OUT := by
    rw [ch423_gpio_set_fst, write_outputs_dev_io]
  refine ⟨⟨(ch423_gpio_set
      ⟨dev.config ||| CMD_CFG_IO_OE, GPIO_LINE_DIRECTION_OUT,
        dev.last_output⟩ offset value bus ret0).2, rfl, ?_⟩, hio, ?_⟩
  · intro m hm
    rw [ch423_gpio_set_snd] at hm
    rcases write_outputs_txn_addrs _ _ _ _ m hm with h | h | h <;>
      rw [h] <;> decide
  · intro p hp
    unfold ch423_gpio_get_direction
    rw [if_neg (by omega)]
    exact hio

/-- C8: `set_direction_input(pin)` fails with -EINVAL and leaves all
state untouched for pin ≥ 8; for pin < 8 it requests the config byte with
the IO_OE bit cleared and records direction Input exactly when that
write_config call succeeds (which includes the no-transaction case), and
on a transport error state is entirely unchanged. -/
theorem C8_direction_input (dev : Ch423) (offset : Nat) (b : Int) :
    (8 ≤ offset →
      ch423_gpio_direction_input dev offset b = ⟨dev, -EINVAL, []⟩) ∧
    (offset < 8 →
      (0 ≤ b →
        ch423_gpio_direction_input dev offset b
          = ⟨⟨dev.config &&& 0xfe, GPIO_LINE_DIRECTION_IN, dev.last_output⟩,
              0,
              if dev.config = dev.config &&& 0xfe then []
              else [⟨CMD_CFG, dev.config &&& 0xfe⟩]⟩) ∧
      (b < 0 → dev.config ≠ dev.config &&& 0xfe →
        ch423_gpio_direction_input dev offset b
          = ⟨dev, b, [⟨CMD_CFG, dev.config &&& 0xfe⟩]⟩) ∧
      (b < 0 → dev.config = dev.config &&& 0xfe →
        ch423_gpio_direction_input dev offset b
          = ⟨{ dev with io_dir := GPIO_LINE_DIRECTION_IN }, 0, []⟩)) := by
  refine ⟨fun h8 => dirInput_ge8 dev offset b h8,
    fun h8 => ⟨?_, fun hb hne => dirInput_err dev offset b h8 hne hb,
      fun hb he => dirInput_skip dev offset b h8 he⟩⟩
  intro hb
  by_cases he : dev.config = dev.config &&& 0xfe
  · rw [dirInput_skip dev offset b h8 he, if_pos he, ← he]
  · rw [dirInput_ok dev offset b h8 he hb, if_neg he]

theorem one_shiftLeft_testBit (i k : Nat) :
    (1 <<< i).testBit k = decide (k = i) := by
  rw [Nat.testBit_shiftLeft]
  by_cases h : k = i
  · subst h
    simp [Nat.sub_self, Nat.testBit_zero]
  · by_cases h2 : i ≤ k
    · have h3 : k - i ≠ 0 := by omega
      obtain ⟨j, hj⟩ := Nat.exists_eq_succ_of_ne_zero h3
      simp [h2, hj, one_testBit_succ, h]
    · simp [h2, h]

theorem not64_one_testBit (i k : Nat) :
    (not64 (1 <<< i)).testBit k
      = Bool.xor (decide (k < 64)) (decide (k = i)) := by
  unfold not64
  rw [Nat.testBit_xor, Nat.testBit_two_pow_sub_one, one_shiftLeft_testBit]

/-- C9: the desired word handed to `write_outputs` by `set(pin, value)`
has bit `pin` equal to the requested value and every other bit equal to
the cached shadow's bit: the operation perturbs the shadow in at most one
bit position. -/
theorem C9_set_frame (last offset k : Nat) (value : Bool)
    (hoff : offset < 24) (hlast : last < 2 ^ 64) :
    (setValues last offset value).testBit offset = value ∧
    (k ≠ offset →
      (setValues last offset value).testBit k = last.testBit k) := by
  have hv : ∀ j, ((if value then (1 : Nat) else 0) <<< offset).testBit j
      = (decide (j = offset) && value) := by
    intro j
    cases value
    · simp [Nat.zero_shiftLeft, Nat.zero_testBit]
    · rw [if_pos rfl, one_shiftLeft_testBit]
      simp
  constructor
  · rw [setValues, Nat.testBit_or, Nat.testBit_and, not64_one_testBit, hv]
    simp [show offset < 64 from by omega]
  · intro hk
    rw [setValues, Nat.testBit_or, Nat.testBit_and, not64_one_testBit, hv]
    by_cases h64 : k < 64
    · simp [h64, hk]
    · have h1 : last.testBit k = false :=
        Nat.testBit_lt_two_pow (lt_of_lt_of_le hlast
          (Nat.pow_le_pow_right (by norm_num) (by omega)))
      simp [h64, hk, h1]

theorem or_od_testBit_ne (x k : Nat) (hk : k ≠ 4) :
    (x ||| 16).testBit k = x.testBit k := by
  rw [Nat.testBit_or, show (16 : Nat) = 2 ^ 4 from rfl, Nat.testBit_two_pow]
  have h4 : (4 : Nat) ≠ k := fun h => hk h.symm
  simp [h4]

theorem or_od_testBit_four (x : Nat) : (x ||| 16).testBit 4 = true := by
  rw [Nat.testBit_or, show Nat.testBit 16 4 = true from rfl, Bool.or_true]

theorem and_ef_testBit_ne (x k : Nat) (hx : x < 256) (hk : k ≠ 4) :
    (x &&& 0xef).testBit k = x.testBit k := by
  rw [Nat.testBit_and]
  by_cases h8 : k < 8
  · have ht : Nat.testBit 0xef k = true := by
      interval_cases k <;> first | rfl | (exact absurd rfl hk)
    rw [ht, Bool.and_true]
  · have hxk : x.testBit k = false :=
      Nat.testBit_lt_two_pow (lt_of_lt_of_le hx
        (by
          calc (256 : Nat) = 2 ^ 8 := by norm_num
            _ ≤ 2 ^ k := Nat.pow_le_pow_right (by norm_num) (by omega)))
    rw [hxk, Bool.false_and]

theorem and_ef_testBit_four (x : Nat) : (x &&& 0xef).testBit 4 = false := by
  rw [Nat.testBit_and, show Nat.testBit 0xef 4 = false from rfl,
    Bool.and_false]

/-- C10: for pin ≥ 8 (with the config byte in u8 range),
`set_drive_mode(pin, OpenDrain)` and `set_drive_mode(pin, PushPull)`
touch at most the OD_EN bit (bit 4) of the cached config — every other
config bit, the output shadow and the recorded direction are unchanged —
and on a successful transfer the bit ends up set (OpenDrain) resp.
cleared (PushPull); any other drive-mode parameter fails with -ENOTSUPP,
issuing no transaction and changing no state. -/
theorem C10_drive_mode_frame (dev : Ch423) (offset cfg : Nat) (b : Int)
    (k : Nat) (h8 : 8 ≤ offset) (hcfg : dev.config < 256) :
    (pinconf_to_config_param cfg = PIN_CONFIG_DRIVE_OPEN_DRAIN ∨
        pinconf_to_config_param cfg = PIN_CONFIG_DRIVE_PUSH_PULL →
      (k ≠ 4 →
        (ch423_gpio_set_config dev offset cfg b).dev.config.testBit k
          = dev.config.testBit k) ∧
      (ch423_gpio_set_config dev offset cfg b).dev.last_output
        = dev.last_output ∧
      (ch423_gpio_set_config dev offset cfg b).dev.io_dir = dev.io_dir ∧
      (0 ≤ b →
        (pinconf_to_config_param cfg = PIN_CONFIG_DRIVE_OPEN_DRAIN →
          (ch423_gpio_set_config dev offset cfg b).dev.config.testBit 4
            = true) ∧
        (pinconf_to_config_param cfg = PIN_CONFIG_DRIVE_PUSH_PULL →
          (ch423_gpio_set_config dev offset cfg b).dev.config.testBit 4
            = false))) ∧
    (pinconf_to_config_param cfg ≠ PIN_CONFIG_DRIVE_OPEN_DRAIN →
      pinconf_to_config_param cfg ≠ PIN_CONFIG_DRIVE_PUSH_PULL →
      ch423_gpio_set_config dev offset cfg b = ⟨dev, -ENOTSUPP, []⟩) := by
  have hOD : CMD_CFG_OD_EN = 16 := rfl
  constructor
  · intro hpar
    rcases hpar with hp | hp
    · rw [setCfgOp_od dev offset cfg b h8 hp, hOD]
      by_cases he : dev.config = dev.config ||| 16
      · rw [set_config_skip _ _ _ he]
        have h4 : dev.config.testBit 4 = true := by
          conv_lhs => rw [he]
          exact or_od_testBit_four dev.config
        exact ⟨fun _ => rfl, rfl, rfl, fun _ =>
          ⟨fun _ => h4, fun hpp => absurd (hp ▸ hpp) (by decide)⟩⟩
      · by_cases hb : 0 ≤ b
        · rw [set_config_ok _ _ _ he hb]
          exact ⟨fun hk => or_od_testBit_ne dev.config k hk, rfl, rfl,
            fun _ => ⟨fun _ => or_od_testBit_four dev.config,
              fun hpp => absurd (hp ▸ hpp) (by decide)⟩⟩
        · rw [set_config_err _ _ _ he (by omega)]
          exact ⟨fun _ => rfl, rfl, rfl, fun hb2 => absurd hb2 hb⟩
    · rw [setCfgOp_pp dev offset cfg b h8 hp]
      by_cases he : dev.config = dev.config &&& 0xef
      · rw [set_config_skip _ _ _ he]
        have h4 : dev.config.testBit 4 = false := by
          conv_lhs => rw [he]
          exact and_ef_testBit_four dev.config
        exact ⟨fun _ => rfl, rfl, rfl, fun _ =>
          ⟨fun hod => absurd (hp ▸ hod) (by decide), fun _ => h4⟩⟩
      · by_cases hb : 0 ≤ b
        · rw [set_config_ok _ _ _ he hb]
          exact ⟨fun hk => and_ef_testBit_ne dev.config k hcfg hk, rfl, rfl,
            fun _ => ⟨fun hod => absurd (hp ▸ hod) (by decide),
              fun _ => and_ef_testBit_four dev.config⟩⟩
        · rw [set_config_err _ _ _ he (by omega)]
          exact ⟨fun _ => rfl, rfl, rfl, fun hb2 => absurd hb2 hb⟩
  · intro hp1 hp2
    exact setCfgOp_other dev offset cfg b h8 hp1 hp2

/-- Witness for C3 at a concrete input: all three bytes change, direction
is Output, every transfer succeeds, and all three transactions appear. -/
theorem C3_diff_minimality_witness :
    (write_outputs ⟨0, GPIO_LINE_DIRECTION_OUT, 0⟩ 0x010101
        (fun _ => (1 : Int)) 0).txns
      = [⟨CMD_SET_IO_REG, 1⟩, ⟨CMD_SET_OC_L, 1⟩, ⟨CMD_SET_OC_H, 1⟩] := by
  rw [C3_diff_minimality ⟨0, GPIO_LINE_DIRECTION_OUT, 0⟩ 0x010101
    (fun _ => (1 : Int)) 0 (fun n => by simp)]
  decide

/-- Witness for C4 at concrete inputs: a -5 transport error is returned
by read, set_direction_input and write_config. -/
theorem C4_error_reporting_witness :
    (ch423_gpio_get 3 (-5) 0).1 = -5 ∧
    (ch423_gpio_direction_input ⟨3, GPIO_LINE_DIRECTION_OUT, 7⟩ 3
        (-5)).ret = -5 ∧
    (set_config ⟨3, GPIO_LINE_DIRECTION_OUT, 7⟩ 6 (-5)).ret = -5 := by
  have h := C4_error_reporting ⟨3, GPIO_LINE_DIRECTION_OUT, 7⟩ 3 6 (-5) 0
    (by decide)
  exact ⟨h.1, h.2.1 (by decide) (by decide), h.2.2.2.2 (by decide)⟩

/-- Witness for C5 at a concrete input: read(10) of byte 0xab returns 0
after the one bus read. -/
theorem C5_get_behavior_witness :
    ch423_gpio_get 10 1 0xab = (0, [⟨CMD_READ_IO_REG, 0xab⟩]) := by
  have h := (C5_get_behavior 10 1 0xab (by decide)).2 (by decide)
  rw [h.1]
  decide

/-- Witness for C6 at a concrete input: one transaction for the first
call, none for the repeat. -/
theorem C6_write_config_witness :
    set_config ⟨3, GPIO_LINE_DIRECTION_OUT, 0⟩ 7 1
      = ⟨⟨7, GPIO_LINE_DIRECTION_OUT, 0⟩, 0, [⟨CMD_CFG, 7⟩]⟩ ∧
    (set_config ⟨3, GPIO_LINE_DIRECTION_OUT, 0⟩ 7 1).txns ++
      (set_config (set_config ⟨3, GPIO_LINE_DIRECTION_OUT, 0⟩ 7 1).dev 7
          1).txns
      = [⟨CMD_CFG, 7⟩] := by
  have h := (C6_write_config ⟨3, GPIO_LINE_DIRECTION_OUT, 0⟩ 7 1 1).2.2
    (by decide) (by decide)
  exact ⟨by rw [h.1], h.2⟩

/-- Witness for C7 at the probe state, pin 3, successful transfers. -/
theorem C7_direction_output_group_witness :
    (∃ rest,
      (ch423_gpio_direction_output probeState 3 true 1
          (fun _ => (1 : Int)) 0).txns
        = ⟨CMD_CFG, probeState.config ||| CMD_CFG_IO_OE⟩ :: rest ∧
      ∀ m ∈ rest, m.addr ≠ CMD_CFG) ∧
    (ch423_gpio_direction_output probeState 3 true 1
        (fun _ => (1 : Int)) 0).dev.io_dir = GPIO_LINE_DIRECTION_OUT ∧
    ∀ p, p < 8 →
      ch423_gpio_get_direction
        (ch423_gpio_direction_output probeState 3 true 1
          (fun _ => (1 : Int)) 0).dev p = GPIO_LINE_DIRECTION_OUT :=
  C7_direction_output_group probeState 3 true 1 (fun _ => (1 : Int)) 0
    Reachable.init (by decide) (by decide) (by decide)

/-- Witness for C8 at concrete inputs: pin 10 rejected with -EINVAL; pin
2 success clears IO_OE and records Input; pin 2 with a failing transfer
leaves the state untouched. -/
theorem C8_direction_input_witness :
    ch423_gpio_direction_input ⟨3, GPIO_LINE_DIRECTION_OUT, 7⟩ 10 1
      = ⟨⟨3, GPIO_LINE_DIRECTION_OUT, 7⟩, -EINVAL, []⟩ ∧
    ch423_gpio_direction_input ⟨3, GPIO_LINE_DIRECTION_OUT, 7⟩ 2 1
      = ⟨⟨2, GPIO_LINE_DIRECTION_IN, 7⟩, 0, [⟨CMD_CFG, 2⟩]⟩ ∧
    ch423_gpio_direction_input ⟨3, GPIO_LINE_DIRECTION_OUT, 7⟩ 2 (-5)
      = ⟨⟨3, GPIO_LINE_DIRECTION_OUT, 7⟩, -5, [⟨CMD_CFG, 2⟩]⟩ := by
  refine ⟨(C8_direction_input ⟨3, GPIO_LINE_DIRECTION_OUT, 7⟩ 10 1).1
      (by decide), ?_, ?_⟩
  · have h := ((C8_direction_input ⟨3, GPIO_LINE_DIRECTION_OUT, 7⟩ 2 1).2
      (by decide)).1 (by decide)
    rw [h]
    decide
  · have h := ((C8_direction_input ⟨3, GPIO_LINE_DIRECTION_OUT, 7⟩ 2
      (-5)).2 (by decide)).2.1 (by decide) (by decide)
    rw [h]
    decide

/-- Witness for C9 at a concrete input. -/
theorem C9_set_frame_witness :
    (5 : Nat) < 24 ∧ (0xABCD : Nat) < 2 ^ 64 ∧
    ((setValues 0xABCD 5 true).testBit 5 = true ∧
      (7 ≠ 5 →
        (setValues 0xABCD 5 true).testBit 7 = (0xABCD : Nat).testBit 7)) :=
  ⟨by decide, by decide, C9_set_frame 0xABCD 5 7 true (by decide) (by decide)⟩

/-- Witness for C10 at concrete inputs: OpenDrain on pin 9 sets bit 4 and
keeps bit 0 and the shadow; an unknown drive-mode parameter (99) is
rejected with -ENOTSUPP. -/
theorem C10_drive_mode_frame_witness :
    (ch423_gpio_set_config ⟨3, GPIO_LINE_DIRECTION_IN, 9⟩ 9 6
        1).dev.config.testBit 0 = (3 : Nat).testBit 0 ∧
    (ch423_gpio_set_config ⟨3, GPIO_LINE_DIRECTION_IN, 9⟩ 9 6
        1).dev.last_output = 9 ∧
    (ch423_gpio_set_config ⟨3, GPIO_LINE_DIRECTION_IN, 9⟩ 9 6
        1).dev.config.testBit 4 = true ∧
    ch423_gpio_set_config ⟨3, GPIO_LINE_DIRECTION_IN, 9⟩ 9 99 1
      = ⟨⟨3, GPIO_LINE_DIRECTION_IN, 9⟩, -ENOTSUPP, []⟩ := by
  have h := C10_drive_mode_frame ⟨3, GPIO_LINE_DIRECTION_IN, 9⟩ 9 6 1 0
    (by decide) (by decide)
  have h2 := C10_drive_mode_frame ⟨3, GPIO_LINE_DIRECTION_IN, 9⟩ 9 99 1 0
    (by decide) (by decide)
  have hc := h.1 (Or.inl (by decide))
  exact ⟨hc.1 (by decide), hc.2.1, (hc.2.2.2 (by decide)).1 (by decide),
    h2.2 (by decide) (by decide)⟩
